import Mathlib

/-! Verification development for the activity-incident tracker's authentication
and visibility core (src/auth.py, src/routes.py, src/database.py).

The stateful Python code is shallowly embedded as pure functions over an
explicit database state `Db`.  Timestamps are stored in SQLite as
`YYYY-MM-DD HH:MM:SS` strings (second granularity) and compared after
parsing (or lexicographically, which agrees with chronological order for
this fixed format); we model instants as natural numbers counting seconds.
Randomness (uuid4 tokens, bcrypt salts) is externalized: the freshly drawn
value is passed to the embedded function as an explicit argument.
-/

namespace ActivityIncident

/-- auth.py line 12: session expiry duration, in days. -/
def SESSION_EXPIRY_DAYS : Nat := 7

/-- Seconds per day, to express `timedelta(days=·)` in the seconds model. -/
def SECONDS_PER_DAY : Nat := 86400

/-- A row of the `sesiones` table (database.py lines 86-91). -/
structure SessionRow where
  session_id : String
  comercial_id : Nat
  created_at : Nat
  expires_at : Nat
deriving Repr, DecidableEq

/-- A row of the `comerciales` table (database.py lines 33-46).  `activo` is
an INTEGER used as a boolean; `subgrupo` is nullable, and nullable TEXT
columns are modelled as `Option String`. -/
structure Comercial where
  id : Nat
  nombre : String
  apellido : Option String
  email : Option String
  telefono : Option String
  zona : Option String
  activo : Bool
  username : String
  password_hash : String
  rol : String
  subgrupo : Option String
deriving Repr, DecidableEq

/-- A row of the `password_resets` table (database.py lines 93-100).
`used` is an INTEGER defaulting to 0, modelled as `Bool`. -/
structure ResetRow where
  id : Nat
  comercial_id : Nat
  token : String
  expires_at : Nat
  used : Bool
  created_at : Nat
deriving Repr, DecidableEq

/-- A row of the `negocios` table (only the fields the dashboard counts
need). -/
structure Negocio where
  id : Nat
  nombre : String
deriving Repr, DecidableEq

/-- A row of the `incidencias` table (only the fields the dashboard counts
need). -/
structure Incidencia where
  id : Nat
  negocio_id : Nat
  estado : String
deriving Repr, DecidableEq

/-- A row of the `actividades` table (only the fields the dashboard counts
need). -/
structure Actividad where
  id : Nat
  comercial_id : Nat
  estado : String
  tipo : String
deriving Repr, DecidableEq

/-- The database state: the tables of database.py that the authentication
and dashboard code touches. -/
structure Db where
  comerciales : List Comercial
  sesiones : List SessionRow
  password_resets : List ResetRow
  negocios : List Negocio
  incidencias : List Incidencia
  actividades : List Actividad
deriving Repr, DecidableEq

/-- routes.py line 271/277: uniform login failure message. -/
def invalidCredentialsMsg : String := "Usuario o contraseña incorrectos"

/-- routes.py line 281: inactive-account message. -/
def inactiveMsg : String := "Usuario inactivo"

/-- routes.py line 479: uniform invalid-or-expired reset token message. -/
def invalidTokenMsg : String := "Token inválido o expirado"

/-- routes.py line 466: weak-password message. -/
def weakPasswordMsg : String := "La contraseña debe tener al menos 8 caracteres"

/-- routes.py line 463: missing token/password message. -/
def requiredFieldsMsg : String := "Token y contraseña requeridos"

/-- routes.py lines 356/454: uniform forgot-password success message. -/
def forgotSuccessMsg : String := "Si el email existe, recibirás instrucciones de recuperación"

/-- routes.py line 498: reset success message. -/
def resetOkMsg : String := "Contraseña actualizada correctamente"

/-- routes.py line 342: empty email message. -/
def emailRequiredMsg : String := "Email requerido"

/-- SQLite error raised when an INSERT violates the UNIQUE constraint on
`password_resets.token` (database.py line 96). -/
def integrityErrorMsg : String := "UNIQUE constraint failed: password_resets.token"

/-- An HTTP-level outcome: either an `HTTPException(status, detail)` or an
OK body carrying the success message. -/
inductive ApiResult where
  | error (status : Nat) (detail : String)
  | ok (message : String)
deriving Repr, DecidableEq

/-- auth.py `delete_session` (lines 80-83): DELETE FROM sesiones WHERE
session_id matches. -/
def delete_session (session_id : String) (db : Db) : Db :=
  { db with sesiones := db.sesiones.filter (fun r => !(r.session_id == session_id)) }

/-- auth.py `get_session` (lines 51-77): SELECT the row by primary key;
if `datetime.now() > expires_at`, delete it (lazy cleanup) and return None;
otherwise return the session row. -/
def get_session (session_id : String) (now : Nat) (db : Db) :
    Option SessionRow × Db :=
  match db.sesiones.find? (fun r => r.session_id == session_id) with
  | none => (none, db)
  | some row =>
      if now > row.expires_at then (none, delete_session session_id db)
      else (some row, db)

/-- auth.py `create_session` (lines 33-48): INSERT a fresh session row with
`created_at = now` and `expires_at = now + 7 days`; `session_id` is the
freshly drawn uuid4, passed in explicitly. -/
def create_session (comercial_id : Nat) (session_id : String) (now : Nat)
    (db : Db) : String × Db :=
  (session_id,
   { db with sesiones := db.sesiones ++
      [⟨session_id, comercial_id, now, now + SESSION_EXPIRY_DAYS * SECONDS_PER_DAY⟩] })

/-- Result of routes.py `login` (lines 260-301): an HTTPException or the
profile body together with the session cookie value set on the response. -/
inductive LoginResult where
  | error (status : Nat) (detail : String)
  | ok (session_id : String) (username nombre : String) (apellido : Option String)
       (rol : String) (subgrupo : Option String)
deriving Repr, DecidableEq

/-- routes.py `login` (lines 260-301).  `verify` abstracts
`auth.verify_password` (bcrypt); `newSessionId` is the uuid4 drawn inside
`create_session`.  Fetch the user by username (401 uniform message when
absent), verify the password (401, same message), check `activo` (403),
then create a session and put its id in the response cookie. -/
def login (verify : String → String → Bool) (username password : String)
    (now : Nat) (newSessionId : String) (db : Db) : LoginResult × Db :=
  match db.comerciales.find? (fun c => c.username == username) with
  | none => (.error 401 invalidCredentialsMsg, db)
  | some user =>
      if !(verify password user.password_hash) then
        (.error 401 invalidCredentialsMsg, db)
      else if !user.activo then
        (.error 403 inactiveMsg, db)
      else
        let res := create_session user.id newSessionId now db
        (.ok res.1 user.username user.nombre user.apellido user.rol user.subgrupo,
         res.2)

/-- Python `str.strip()`: drop leading and trailing whitespace. -/
def pyStrip (s : String) : String :=
  ⟨((s.data.dropWhile Char.isWhitespace).reverse.dropWhile Char.isWhitespace).reverse⟩

/-- Outcome of routes.py `forgot_password`: the HTTP result together with
whether the artificial `asyncio.sleep(0.5)` delay on the no-match path
(routes.py lines 353-355) was taken. -/
structure ForgotOut where
  result : ApiResult
  delayed : Bool
deriving Repr, DecidableEq

/-- routes.py `forgot_password` (lines 334-454).  Strip the email; 400 when
empty; look the identity up by email.  On no match: take the artificial
delay and answer the uniform success message without touching the database.
On match: INSERT one `password_resets` row with the freshly drawn uuid4
`newToken`, `expires_at = now + 1 hour`, `used = 0` (the guard models the
UNIQUE constraint on `token`: a duplicate INSERT raises and commits
nothing), commit, then attempt email dispatch.  `smtpEnabled` and `sendOk`
model the SMTP flag and the dispatch outcome; they only drive console/email
side channels, never the response or the database. -/
def forgot_password (rawEmail : String) (now : Nat) (newToken : String)
    (newRowId : Nat) (smtpEnabled sendOk : Bool) (db : Db) : ForgotOut × Db :=
  if (pyStrip rawEmail) == "" then (⟨.error 400 emailRequiredMsg, false⟩, db)
  else
    match db.comerciales.find? (fun c => c.email == some (pyStrip rawEmail)) with
    | none => (⟨.ok forgotSuccessMsg, true⟩, db)
    | some user =>
        if db.password_resets.any (fun r => r.token == newToken) then
          (⟨.error 500 integrityErrorMsg, false⟩, db)
        else
          (⟨.ok forgotSuccessMsg, false⟩,
           { db with password_resets := db.password_resets ++
              [⟨newRowId, user.id, newToken, now + 3600, false, now⟩] })

/-- The WHERE clause of routes.py lines 472-475: token matches, not yet
used, and `expires_at > now` (SQLite compares the timestamp strings
lexicographically, which is chronological for this format). -/
def resetTokenPred (token : String) (now : Nat) (r : ResetRow) : Bool :=
  r.token == token && decide (now < r.expires_at) && r.used == false

/-- routes.py `reset_password` (lines 456-498).  Strip the token; 400 when
token or password is empty; 400 when the password is shorter than 8
characters; SELECT a row with this token, unexpired and unused (uniform 400
when none); otherwise UPDATE the owner's password hash to `newHash` (the
bcrypt hash of the new password, drawn with a fresh salt) and flip the
token's `used` flag, committing both together. -/
def reset_password (rawToken new_password : String) (now : Nat)
    (newHash : String) (db : Db) : ApiResult × Db :=
  if (pyStrip rawToken) == "" || new_password == "" then
    (.error 400 requiredFieldsMsg, db)
  else if new_password.length < 8 then
    (.error 400 weakPasswordMsg, db)
  else
    match db.password_resets.find? (resetTokenPred (pyStrip rawToken) now) with
    | none => (.error 400 invalidTokenMsg, db)
    | some row =>
        (.ok resetOkMsg,
         { db with
            comerciales := db.comerciales.map (fun c =>
              if c.id == row.comercial_id then { c with password_hash := newHash } else c),
            password_resets := db.password_resets.map (fun r =>
              if r.token == (pyStrip rawToken) then { r with used := true } else r) })

/-- SQL equality on a nullable TEXT column: `x = y` is true only when both
sides are non-NULL and equal (`subgrupo = NULL` matches no row). -/
def sqlEqOpt (a b : Option String) : Bool :=
  match a, b with
  | some x, some y => x == y
  | _, _ => false

/-- routes.py `get_visible_comercial_ids` (lines 213-235): administrador and
jefe see every comercial id; jefe_grupo runs
`SELECT id FROM comerciales WHERE subgrupo = ? OR id = ?` with the caller's
subgrupo and id; anyone else (comercial) sees only their own id. -/
def get_visible_comercial_ids (current_user : Comercial) (db : Db) : List Nat :=
  if current_user.rol == "administrador" || current_user.rol == "jefe" then
    db.comerciales.map (fun c => c.id)
  else if current_user.rol == "jefe_grupo" then
    (db.comerciales.filter (fun c =>
       sqlEqOpt c.subgrupo current_user.subgrupo || c.id == current_user.id)).map
      (fun c => c.id)
  else
    [current_user.id]

/-- The scalar aggregates of the routes.py `/stats` response (lines
508-537) that the visibility claims are about.  The grouped aggregates
further down the handler reuse the same filters and are not modelled. -/
structure Stats where
  total_negocios : Nat
  total_comerciales : Nat
  total_incidencias : Nat
  incidencias_abiertas : Nat
  total_actividades : Nat
  actividades_pendientes : Nat
deriving Repr, DecidableEq

/-- routes.py `get_stats` (lines 508-537): negocios and incidencias are
counted over all rows; comerciales and actividades are filtered by the
caller's visible-id set. -/
def get_stats (current_user : Comercial) (db : Db) : Stats :=
  let visible_ids := get_visible_comercial_ids current_user db
  { total_negocios := db.negocios.length
    total_comerciales :=
      (db.comerciales.filter (fun c => c.activo && visible_ids.contains c.id)).length
    total_incidencias := db.incidencias.length
    incidencias_abiertas :=
      (db.incidencias.filter (fun i =>
        !(i.estado == "resuelta" || i.estado == "cerrada"))).length
    total_actividades :=
      (db.actividades.filter (fun a => visible_ids.contains a.comercial_id)).length
    actividades_pendientes :=
      (db.actividades.filter (fun a =>
        a.estado == "pendiente" && visible_ids.contains a.comercial_id)).length }

/-- The bcrypt `$2b$12$` header emitted by `bcrypt.gensalt()` at the default
cost (the seeded hashes in database.py all carry it). -/
def bcryptHeader : List Char := ['$', '2', 'b', '$', '1', '2', '$']

/-- Model of `bcrypt.hashpw(password, salt)`: the output string is the
header, the 22-character salt, then the 31-character key-derivation digest
of password and salt.  The digest function itself is an abstract parameter;
only its output length matters to the properties proved here. -/
def bcrypt_hashpw (digest : List Char → List Char → List Char)
    (pw salt : List Char) : List Char :=
  bcryptHeader ++ salt ++ digest pw salt

/-- Model of `bcrypt.checkpw(password, hashed)`: parse the 60-character
hash (header, salt, stored digest), recompute the digest and compare;
`none` models the ValueError bcrypt raises on a malformed hash. -/
def bcrypt_checkpw (digest : List Char → List Char → List Char)
    (pw hashed : List Char) : Option Bool :=
  if hashed.length = 60 ∧ hashed.take 7 = bcryptHeader then
    some (digest pw ((hashed.drop 7).take 22) == hashed.drop 29)
  else
    none

/-- auth.py `hash_password` (lines 15-20): hash the plaintext with a fresh
random salt from `bcrypt.gensalt()`; the drawn salt is passed in
explicitly. -/
def hash_password (digest : List Char → List Char → List Char)
    (plain salt : List Char) : List Char :=
  bcrypt_hashpw digest plain salt

/-- auth.py `verify_password` (lines 23-30): `bcrypt.checkpw` wrapped in
try/except returning False, so a malformed hash (ValueError) is
indistinguishable from a wrong password; being a total function, it never
raises. -/
def verify_password (digest : List Char → List Char → List Char)
    (plain hashed : List Char) : Bool :=
  (bcrypt_checkpw digest plain hashed).getD false

/-- The state-mutating endpoints of the embedded core, as an operation
alphabet for interleaving arguments: any sequence of logins, logouts,
forgot-password and reset-password calls. -/
inductive Op where
  | opLogin (verify : String → String → Bool) (username password : String)
      (now : Nat) (newSessionId : String)
  | opLogout (session_id : String)
  | opForgot (rawEmail : String) (now : Nat) (newToken : String)
      (newRowId : Nat) (smtpEnabled sendOk : Bool)
  | opReset (rawToken new_password : String) (now : Nat) (newHash : String)

/-- Apply one endpoint call to the database state, discarding the
response. -/
def applyOp (db : Db) : Op → Db
  | .opLogin v u p n sid => (login v u p n sid db).2
  | .opLogout sid => delete_session sid db
  | .opForgot e n t rid s k => (forgot_password e n t rid s k db).2
  | .opReset t p n h => (reset_password t p n h db).2

/-- Apply a sequence of endpoint calls left to right. -/
def applyOps (ops : List Op) (db : Db) : Db := ops.foldl applyOp db

/-- A reset token has been consumed: some stored row carries it, and every
stored row carrying it has `used = 1`. -/
def consumed (t : String) (db : Db) : Prop :=
  (∃ r ∈ db.password_resets, r.token = t) ∧
  ∀ r ∈ db.password_resets, r.token = t → r.used = true

/-! Concrete sample states, used to instantiate the theorems below. -/

/-- A sample stored session expiring at instant 100. -/
def sampleSession : SessionRow := ⟨"s1", 5, 0, 100⟩

/-- A database holding just `sampleSession`. -/
def sampleSessionDb : Db := ⟨[], [sampleSession], [], [], [], []⟩

/-- A sample identity owning a reset token. -/
def anaUser : Comercial :=
  ⟨7, "Ana", none, some "a@b.es", none, none, true, "ana", "OLD", "comercial", some "B"⟩

/-- A database with one identity and one unused reset token for it,
expiring at instant 100. -/
def sampleResetDb : Db := ⟨[anaUser], [], [⟨1, 7, "tok1", 100, false, 0⟩], [], [], []⟩

/-- A sample administrator. -/
def adminUser : Comercial :=
  ⟨1, "Admin", none, none, none, none, true, "admin", "H", "administrador", none⟩

/-- A sample group boss of subgroup A. -/
def jefeAUser : Comercial :=
  ⟨3, "JefeA", none, none, none, none, true, "jefe_a", "H", "jefe_grupo", some "A"⟩

/-- A sample agent in subgroup A. -/
def carlosUser : Comercial :=
  ⟨5, "Carlos", none, none, none, none, true, "carlos", "H", "comercial", some "A"⟩

/-- A sample group boss whose `subgrupo` column is NULL (the schema permits
this). -/
def jefeNullUser : Comercial :=
  ⟨9, "JefeN", none, none, none, none, true, "jefen", "H", "jefe_grupo", none⟩

/-- A roster with an administrator, a subgroup-A boss, a subgroup-A agent
and a NULL-subgroup boss. -/
def sampleRosterDb : Db :=
  ⟨[adminUser, jefeAUser, carlosUser, jefeNullUser], [], [], [], [], []⟩

/-! Claim C1: session fetch validity and lazy expiry. -/

/-- C1 (amended): for the stored session a fetch returns, `get_session` is
valid exactly when the current time is at or before its expiry
(`datetime.now() > expires_at` triggers deletion); an expired fetch deletes
the row and returns absent; at the boundary, a fetch one second before
expiry and a fetch at the expiry instant return the session, while a fetch
one second after expiry returns absent.  (Original claim said a fetch at
expiry returns absent; the code keeps the session then.) -/
theorem get_session_valid_iff (db : Db) (sid : String) (now : Nat) :
    (db.sesiones.find? (fun r => r.session_id == sid) = none →
       get_session sid now db = (none, db))
  ∧ ∀ r, db.sesiones.find? (fun r => r.session_id == sid) = some r →
      (((get_session sid now db).1 = some r ↔ now ≤ r.expires_at)
       ∧ (r.expires_at < now →
            (get_session sid now db).1 = none ∧
            ∀ r2 ∈ (get_session sid now db).2.sesiones, ¬ r2.session_id = sid)
       ∧ (get_session sid (r.expires_at - 1) db).1 = some r
       ∧ (get_session sid r.expires_at db).1 = some r
       ∧ (get_session sid (r.expires_at + 1) db).1 = none) := by
  constructor
  · intro h
    simp [get_session, h]
  · intro r hr
    refine ⟨?_, ?_, ?_, ?_, ?_⟩
    · simp only [get_session, hr]
      by_cases h : now > r.expires_at
      · rw [if_pos h]
        constructor
        · intro he
          exact absurd he (by simp)
        · intro hle
          exact absurd h (by omega)
      · rw [if_neg h]
        constructor
        · intro _
          omega
        · intro _
          rfl
    · intro hlt
      have hgt : now > r.expires_at := hlt
      simp only [get_session, hr, if_pos hgt]
      refine ⟨by trivial, ?_⟩
      intro r2 hr2 hcontra
      have := List.of_mem_filter hr2
      simp only [hcontra, Bool.not_eq_true'] at this
      simp at this
    · have hcond : ¬ (r.expires_at - 1 > r.expires_at) := by omega
      simp only [get_session, hr, if_neg hcond]
    · have hcond : ¬ (r.expires_at > r.expires_at) := by omega
      simp only [get_session, hr, if_neg hcond]
    · have hcond : r.expires_at + 1 > r.expires_at := by omega
      simp only [get_session, hr, if_pos hcond]

/-- C1 witness: on the concrete store, a fetch at the expiry instant still
returns the session and a fetch one second later does not. -/
theorem get_session_valid_iff_witness :
    (get_session "s1" 100 sampleSessionDb).1 = some sampleSession ∧
    (get_session "s1" (sampleSession.expires_at + 1) sampleSessionDb).1 = none := by
  have h := (get_session_valid_iff sampleSessionDb "s1" 100).2 sampleSession (by decide)
  exact ⟨h.1.mpr (by decide), h.2.2.2.2⟩

/-- C1 counterexample: the claim says a fetch at the expiry instant returns
absent, but on a session expiring at instant 100 a fetch at instant 100
returns the session. -/
theorem get_session_at_expiry_cex :
    ¬ ((get_session "s1" 100 sampleSessionDb).1 = none) := by decide

/-! Claims C4 and C10: role-based visibility. -/

/-- SQL equality against a non-NULL right operand holds exactly on an equal
non-NULL left operand. -/
theorem sqlEqOpt_some_right (a : Option String) (s : String) :
    sqlEqOpt a (some s) = true ↔ a = some s := by
  cases a <;> simp [sqlEqOpt]

/-- SQL equality against NULL matches no row. -/
theorem sqlEqOpt_none_right (a : Option String) : sqlEqOpt a none = false := by
  cases a <;> rfl

/-- C4: administrador and jefe see every identity id; a jefe_grupo with a
non-NULL subgroup sees exactly the ids of identities in their subgroup plus
themself; a comercial sees only their own id. -/
theorem get_visible_comercial_ids_by_role (u : Comercial) (db : Db)
    (hu : u ∈ db.comerciales) :
    ((u.rol = "administrador" ∨ u.rol = "jefe") →
       get_visible_comercial_ids u db = db.comerciales.map (fun c => c.id))
  ∧ (u.rol = "jefe_grupo" → ∀ s, u.subgrupo = some s →
       ∀ x, x ∈ get_visible_comercial_ids u db ↔
         ((∃ c ∈ db.comerciales, c.id = x ∧ c.subgrupo = some s) ∨ x = u.id))
  ∧ (u.rol = "comercial" → get_visible_comercial_ids u db = [u.id]) := by
  refine ⟨?_, ?_, ?_⟩
  · intro h
    unfold get_visible_comercial_ids
    rcases h with h | h <;> simp [h]
  · intro h s hs x
    unfold get_visible_comercial_ids
    rw [if_neg (by simp [h]), if_pos (by simp [h])]
    simp only [List.mem_map, List.mem_filter, hs]
    constructor
    · rintro ⟨c, ⟨hc, hcond⟩, rfl⟩
      simp only [Bool.or_eq_true] at hcond
      rcases hcond with hsub | hid
      · exact Or.inl ⟨c, hc, rfl, (sqlEqOpt_some_right _ _).1 hsub⟩
      · exact Or.inr (by simpa using hid)
    · rintro (⟨c, hc, rfl, hsub⟩ | rfl)
      · exact ⟨c, ⟨hc, by simp [(sqlEqOpt_some_right _ _).2 hsub]⟩, rfl⟩
      · exact ⟨u, ⟨hu, by simp⟩, rfl⟩
  · intro h
    unfold get_visible_comercial_ids
    rw [if_neg (by simp [h]), if_neg (by simp [h])]

/-- C4 witness: on the concrete roster, id 5 (the subgroup-A agent) is
visible to the subgroup-A boss via the membership characterization. -/
theorem get_visible_comercial_ids_by_role_witness :
    5 ∈ get_visible_comercial_ids jefeAUser sampleRosterDb ↔
      ((∃ c ∈ sampleRosterDb.comerciales, c.id = 5 ∧ c.subgrupo = some "A") ∨
        5 = jefeAUser.id) :=
  (get_visible_comercial_ids_by_role jefeAUser sampleRosterDb (by decide)).2.1
    (by decide) "A" (by decide) 5

/-- C10: a jefe_grupo whose `subgrupo` is NULL sees exactly their own id:
the SQL comparison `subgrupo = NULL` matches no row, so only the `id = ?`
disjunct fires. -/
theorem jefe_grupo_null_subgrupo_sees_self (u : Comercial) (db : Db)
    (hu : u ∈ db.comerciales) (hrol : u.rol = "jefe_grupo")
    (hsub : u.subgrupo = none) :
    ∀ x, x ∈ get_visible_comercial_ids u db ↔ x = u.id := by
  intro x
  unfold get_visible_comercial_ids
  rw [if_neg (by simp [hrol]), if_pos (by simp [hrol])]
  simp only [List.mem_map, List.mem_filter, hsub, sqlEqOpt_none_right,
    Bool.false_or]
  constructor
  · rintro ⟨c, ⟨hc, hid⟩, rfl⟩
    simpa using hid
  · rintro rfl
    exact ⟨u, ⟨hu, by simp⟩, rfl⟩

/-- C10 witness: on the concrete roster, the NULL-subgroup boss (id 9) sees
exactly id 9. -/
theorem jefe_grupo_null_subgrupo_sees_self_witness :
    9 ∈ get_visible_comercial_ids jefeNullUser sampleRosterDb ↔ 9 = jefeNullUser.id :=
  jefe_grupo_null_subgrupo_sees_self jefeNullUser sampleRosterDb (by decide)
    (by decide) (by decide) 9

/-! Reset-password case analysis and the single-use invariant (claims C2, C3, C7). -/

/-- Exhaustive case analysis of `reset_password`: missing fields, weak
password, invalid token, or success with both updates applied. -/
theorem reset_password_spec (tk pw : String) (n : Nat) (h : String) (db : Db) :
    (reset_password tk pw n h db = (.error 400 requiredFieldsMsg, db) ∧
       ((pyStrip tk) = "" ∨ pw = ""))
  ∨ (reset_password tk pw n h db = (.error 400 weakPasswordMsg, db) ∧
       (pyStrip tk) ≠ "" ∧ pw ≠ "" ∧ pw.length < 8)
  ∨ (reset_password tk pw n h db = (.error 400 invalidTokenMsg, db) ∧
       (pyStrip tk) ≠ "" ∧ pw ≠ "" ∧ ¬ pw.length < 8 ∧
       db.password_resets.find? (resetTokenPred (pyStrip tk) n) = none)
  ∨ (∃ row, db.password_resets.find? (resetTokenPred (pyStrip tk) n) = some row ∧
       (pyStrip tk) ≠ "" ∧ pw ≠ "" ∧ ¬ pw.length < 8 ∧
       reset_password tk pw n h db = (.ok resetOkMsg,
         { db with
            comerciales := db.comerciales.map (fun c =>
              if c.id == row.comercial_id then { c with password_hash := h } else c),
            password_resets := db.password_resets.map (fun r =>
              if r.token == (pyStrip tk) then { r with used := true } else r) })) := by
  unfold reset_password
  by_cases h1 : ((pyStrip tk) == "" || pw == "") = true
  · rw [if_pos h1]
    refine Or.inl ⟨rfl, ?_⟩
    simpa using h1
  · rw [if_neg h1]
    have h1a : (pyStrip tk) ≠ "" := by
      intro hc
      exact h1 (by simp [hc])
    have h1b : pw ≠ "" := by
      intro hc
      exact h1 (by simp [hc])
    by_cases h2 : pw.length < 8
    · rw [if_pos h2]
      exact Or.inr (Or.inl ⟨rfl, h1a, h1b, h2⟩)
    · rw [if_neg h2]
      cases hf : db.password_resets.find? (resetTokenPred (pyStrip tk) n) with
      | none =>
          exact Or.inr (Or.inr (Or.inl ⟨rfl, h1a, h1b, h2, rfl⟩))
      | some row =>
          exact Or.inr (Or.inr (Or.inr ⟨row, rfl, h1a, h1b, h2, rfl⟩))

/-- Two states with the same reset rows agree on token consumption. -/
theorem consumed_of_resets_eq (t : String) (db db2 : Db)
    (he : db2.password_resets = db.password_resets) (h : consumed t db) :
    consumed t db2 := by
  unfold consumed at h ⊢
  rw [he]
  exact h

/-- `login` never touches the reset-token table. -/
theorem login_resets (v : String → String → Bool) (u p : String) (n : Nat)
    (sid : String) (db : Db) :
    (login v u p n sid db).2.password_resets = db.password_resets := by
  unfold login
  cases hf : db.comerciales.find? (fun c => c.username == u) with
  | none => rfl
  | some user =>
      cases hv : v p user.password_hash <;> cases ha : user.activo <;>
        simp [hv, ha, create_session]

/-- `forgot_password` preserves consumption of any token: it either leaves
the reset table alone or inserts a fresh token (the UNIQUE constraint
refuses a duplicate of a stored one). -/
theorem forgot_preserves_consumed (t e : String) (n : Nat) (tok : String)
    (rid : Nat) (s k : Bool) (db : Db) (h : consumed t db) :
    consumed t (forgot_password e n tok rid s k db).2 := by
  unfold forgot_password
  by_cases he : ((pyStrip e) == "") = true
  · rw [if_pos he]
    exact h
  · rw [if_neg he]
    cases hf : db.comerciales.find? (fun c => c.email == some (pyStrip e)) with
    | none => exact h
    | some user =>
        dsimp only
        by_cases hany : (db.password_resets.any (fun r => r.token == tok)) = true
        · rw [if_pos hany]
          exact h
        · rw [if_neg hany]
          unfold consumed at h ⊢
          obtain ⟨⟨r, hrmem, hrtok⟩, hall⟩ := h
          constructor
          · exact ⟨r, List.mem_append_left _ hrmem, hrtok⟩
          · intro r2 hr2 htok2
            rcases List.mem_append.1 hr2 with hin | hin
            · exact hall r2 hin htok2
            · simp only [List.mem_singleton] at hin
              subst hin
              exfalso
              apply hany
              simp only [List.any_eq_true]
              have htok2a : tok = t := htok2
              exact ⟨r, hrmem, by simp [hrtok, htok2a]⟩

/-- `reset_password` preserves consumption of any token: the used flag is
only ever flipped to true and tokens are never rewritten. -/
theorem reset_preserves_consumed (t tk pw : String) (n : Nat) (hs : String)
    (db : Db) (h : consumed t db) :
    consumed t (reset_password tk pw n hs db).2 := by
  rcases reset_password_spec tk pw n hs db with ⟨he, _⟩ | ⟨he, _⟩ | ⟨he, _⟩ |
    ⟨row, hf, _, _, _, he⟩
  · rw [he]; exact h
  · rw [he]; exact h
  · rw [he]; exact h
  · rw [he]
    unfold consumed at h ⊢
    obtain ⟨⟨r, hrmem, hrtok⟩, hall⟩ := h
    constructor
    · refine ⟨(if (r.token == (pyStrip tk)) = true then { r with used := true } else r),
        List.mem_map_of_mem _ hrmem, ?_⟩
      split <;> exact hrtok
    · intro r2 hr2 htok2
      obtain ⟨r0, hr0, rfl⟩ := List.mem_map.1 hr2
      by_cases hc : (r0.token == (pyStrip tk)) = true
      · rw [if_pos hc]
      · rw [if_neg hc]
        rw [if_neg hc] at htok2
        exact hall r0 hr0 htok2

/-- Every state-mutating endpoint preserves consumption of a token. -/
theorem consumed_applyOp (t : String) (db : Db) (op : Op) (h : consumed t db) :
    consumed t (applyOp db op) := by
  cases op with
  | opLogin v u p n sid => exact consumed_of_resets_eq t db _ (login_resets v u p n sid db) h
  | opLogout sid => exact consumed_of_resets_eq t db _ rfl h
  | opForgot e n tok rid s k => exact forgot_preserves_consumed t e n tok rid s k db h
  | opReset tk pw n hs => exact reset_preserves_consumed t tk pw n hs db h

/-- Consumption of a token survives any sequence of endpoint calls. -/
theorem consumed_applyOps (t : String) (ops : List Op) (db : Db)
    (h : consumed t db) : consumed t (applyOps ops db) := by
  induction ops generalizing db with
  | nil => exact h
  | cons op ops ih => exact ih _ (consumed_applyOp t db op h)

/-- Once a token is consumed, the reset SELECT finds no row for it. -/
theorem consumed_find_none (t : String) (db : Db) (h : consumed t db) (n : Nat) :
    db.password_resets.find? (resetTokenPred t n) = none := by
  rw [List.find?_eq_none]
  intro r hr hpred
  unfold resetTokenPred at hpred
  simp only [Bool.and_eq_true, beq_iff_eq, decide_eq_true_eq] at hpred
  obtain ⟨⟨htok, _⟩, hused⟩ := hpred
  have hu := h.2 r hr htok
  rw [hu] at hused
  exact Bool.noConfusion hused

/-- C2: a reset token is consumable at most once.  If a `reset_password`
call succeeds on a token, then after any further sequence of endpoint
calls, a second `reset_password` presenting the same token never succeeds,
and (when it passes the field and length checks) fails with the uniform
invalid-or-expired error: a token is valid only while `used = 0` and the
current time is strictly before its expiry. -/
theorem reset_token_consumed_once (db : Db) (tok pw1 pw2 hash1 hash2 : String)
    (t1 t2 : Nat) (ops : List Op) (m : String)
    (hfirst : (reset_password tok pw1 t1 hash1 db).1 = .ok m) :
    (∀ m2, (reset_password tok pw2 t2 hash2
        (applyOps ops (reset_password tok pw1 t1 hash1 db).2)).1 ≠ ApiResult.ok m2)
  ∧ (pw2 ≠ "" → ¬ pw2.length < 8 →
      (reset_password tok pw2 t2 hash2
        (applyOps ops (reset_password tok pw1 t1 hash1 db).2)).1
        = ApiResult.error 400 invalidTokenMsg) := by
  rcases reset_password_spec tok pw1 t1 hash1 db with ⟨he, _⟩ | ⟨he, _⟩ | ⟨he, _⟩ |
    ⟨row, hf, htk, _, _, he⟩
  · rw [he] at hfirst; exact absurd hfirst (by simp)
  · rw [he] at hfirst; exact absurd hfirst (by simp)
  · rw [he] at hfirst; exact absurd hfirst (by simp)
  · have hrowtok : (row.token == (pyStrip tok)) = true := by
      have hpred := List.find?_some hf
      unfold resetTokenPred at hpred
      simp only [Bool.and_eq_true] at hpred
      exact hpred.1.1
    have hcons1 : consumed (pyStrip tok) (reset_password tok pw1 t1 hash1 db).2 := by
      rw [he]
      unfold consumed
      constructor
      · refine ⟨{ row with used := true }, ?_, by simpa using hrowtok⟩
        have hfr : (fun r => if r.token == (pyStrip tok) then { r with used := true } else r) row
            = { row with used := true } := by simp [hrowtok]
        rw [← hfr]
        exact List.mem_map_of_mem _ (List.mem_of_find?_eq_some hf)
      · intro r2 hr2 htok2
        obtain ⟨r0, hr0, rfl⟩ := List.mem_map.1 hr2
        by_cases hc : (r0.token == (pyStrip tok)) = true
        · rw [if_pos hc]
        · rw [if_neg hc]
          rw [if_neg hc] at htok2
          exact absurd htok2 (by simpa using hc)
    have hcons2 := consumed_applyOps (pyStrip tok) ops _ hcons1
    have hnone := consumed_find_none (pyStrip tok) _ hcons2 t2
    rcases reset_password_spec tok pw2 t2 hash2
        (applyOps ops (reset_password tok pw1 t1 hash1 db).2) with
      ⟨he2, hcase⟩ | ⟨he2, hcase⟩ | ⟨he2, _⟩ | ⟨row2, hf2, _, _, _, he2⟩
    · constructor
      · intro m2
        rw [he2]
        simp
      · intro hp2 _
        rcases hcase with hc | hc
        · exact absurd hc htk
        · exact absurd hc hp2
    · constructor
      · intro m2
        rw [he2]
        simp
      · intro _ hlen2
        exact absurd hcase.2.2 hlen2
    · constructor
      · intro m2
        rw [he2]
        simp
      · intro _ _
        rw [he2]
    · rw [hnone] at hf2
      exact absurd hf2 (by simp)

/-- C2 witness: on the concrete store the first reset succeeds and the
second presentation of the same token is rejected with the uniform
message. -/
theorem reset_token_consumed_once_witness :
    (reset_password "tok1" "password2" 60 "H2"
        (applyOps [] (reset_password "tok1" "password1" 50 "H1" sampleResetDb).2)).1
      = ApiResult.error 400 invalidTokenMsg :=
  (reset_token_consumed_once sampleResetDb "tok1" "password1" "password2" "H1" "H2"
      50 60 [] resetOkMsg (by decide)).2 (by decide) (by decide)

/-- C3: a `reset_password` call whose token is rejected (unknown, already
used, or expired with `expires_at ≤ now`) answers the uniform
invalid-or-expired error and leaves the database — in particular every
password hash — unchanged; a successful call applies the owner's
password-hash update and the token's used-flag flip together in the single
committed result state. -/
theorem reset_password_reject_uniform_atomic (db : Db) (tok pw : String) (n : Nat)
    (newHash : String) (htk : (pyStrip tok) ≠ "") (hpw : pw ≠ "")
    (hlen : ¬ pw.length < 8) :
    ((∀ r ∈ db.password_resets, r.token = (pyStrip tok) → r.used = true ∨ r.expires_at ≤ n) →
       reset_password tok pw n newHash db = (.error 400 invalidTokenMsg, db))
  ∧ (∀ m, (reset_password tok pw n newHash db).1 = .ok m →
      ∃ r0 ∈ db.password_resets, r0.token = (pyStrip tok) ∧ r0.used = false ∧
        n < r0.expires_at ∧
        (∀ c ∈ db.comerciales, c.id = r0.comercial_id →
           { c with password_hash := newHash } ∈
             (reset_password tok pw n newHash db).2.comerciales) ∧
        (∀ c ∈ db.comerciales, c.id ≠ r0.comercial_id →
           c ∈ (reset_password tok pw n newHash db).2.comerciales) ∧
        (∀ r ∈ (reset_password tok pw n newHash db).2.password_resets,
           r.token = (pyStrip tok) → r.used = true)) := by
  rcases reset_password_spec tok pw n newHash db with ⟨he, hc⟩ | ⟨he, hc⟩ | ⟨he, hc⟩ |
    ⟨row, hf, _, _, _, he⟩
  · rcases hc with hc | hc
    · exact absurd hc htk
    · exact absurd hc hpw
  · exact absurd hc.2.2 hlen
  · constructor
    · intro _
      exact he
    · intro m hok
      rw [he] at hok
      exact absurd hok (by simp)
  · have hpred := List.find?_some hf
    unfold resetTokenPred at hpred
    simp only [Bool.and_eq_true, beq_iff_eq, decide_eq_true_eq] at hpred
    obtain ⟨⟨htok0, hexp0⟩, hused0⟩ := hpred
    constructor
    · intro hrej
      exfalso
      rcases hrej row (List.mem_of_find?_eq_some hf) htok0 with h1 | h1
      · rw [hused0] at h1
        exact Bool.noConfusion h1
      · omega
    · intro m _
      refine ⟨row, List.mem_of_find?_eq_some hf, htok0, by simpa using hused0,
        hexp0, ?_, ?_, ?_⟩
      · intro c hcmem hcid
        rw [he]
        exact List.mem_map.2 ⟨c, hcmem, by rw [if_pos (show (c.id == row.comercial_id) = true by simpa using hcid)]⟩
      · intro c hcmem hcid
        rw [he]
        exact List.mem_map.2 ⟨c, hcmem, by rw [if_neg (show ¬ (c.id == row.comercial_id) = true by simpa using hcid)]⟩
      · intro r hr htokr
        rw [he] at hr
        obtain ⟨r0, hr0, rfl⟩ := List.mem_map.1 hr
        by_cases hcr : (r0.token == (pyStrip tok)) = true
        · rw [if_pos hcr]
        · rw [if_neg hcr]
          rw [if_neg hcr] at htokr
          exact absurd htokr (by simpa using hcr)

/-- C3 witness: on the concrete store an unknown token is rejected with the
uniform error and the database, hashes included, is unchanged. -/
theorem reset_password_reject_uniform_atomic_witness :
    reset_password "tokX" "password1" 50 "H" sampleResetDb
      = (ApiResult.error 400 invalidTokenMsg, sampleResetDb) :=
  (reset_password_reject_uniform_atomic sampleResetDb "tokX" "password1" 50 "H"
      (by decide) (by decide) (by decide)).1 (by decide)

/-- C7 (amended): a `reset_password` request whose new password is shorter
than 8 characters is rejected before any token lookup, leaving the
database (tokens and hashes) unchanged: with the weak-password error when
token and password are both nonempty, but with the missing-fields error
when the token or the password is empty.  (Original claim promised the
weak-password error for every short password; an empty password hits the
missing-fields check first.) -/
theorem reset_short_password_rejected (tok pw : String) (n : Nat)
    (newHash : String) (db : Db) (hlen : pw.length < 8) :
    (((pyStrip tok) = "" ∨ pw = "") →
       reset_password tok pw n newHash db = (.error 400 requiredFieldsMsg, db))
  ∧ ((pyStrip tok) ≠ "" → pw ≠ "" →
       reset_password tok pw n newHash db = (.error 400 weakPasswordMsg, db)) := by
  rcases reset_password_spec tok pw n newHash db with ⟨he, hc⟩ | ⟨he, hc⟩ | ⟨he, hc⟩ |
    ⟨row, hf, htk2, hpw2, hl2, he⟩
  · constructor
    · intro _
      exact he
    · intro htk hpw
      rcases hc with hc | hc
      · exact absurd hc htk
      · exact absurd hc hpw
  · constructor
    · intro hor
      rcases hor with hor | hor
      · exact absurd hor hc.1
      · exact absurd hor hc.2.1
    · intro _ _
      exact he
  · exact absurd hlen hc.2.2.1
  · exact absurd hlen hl2

/-- C7 witness: a nonempty 5-character password is rejected with the
weak-password error and the store is untouched. -/
theorem reset_short_password_rejected_witness :
    reset_password "tok1" "short" 50 "H" sampleResetDb
      = (ApiResult.error 400 weakPasswordMsg, sampleResetDb) :=
  (reset_short_password_rejected "tok1" "short" 50 "H" sampleResetDb
      (by decide)).2 (by decide) (by decide)

/-- C7 counterexample: the empty password is shorter than 8 characters, yet
the response is not the weak-password error (it is the missing-fields
error). -/
theorem reset_short_password_cex :
    ("" : String).length < 8 ∧
      ¬ ((reset_password "tok1" "" 50 "H" sampleResetDb).1
          = ApiResult.error 400 weakPasswordMsg) := by decide

/-! Claim C5: uniform login errors. -/

/-- C5: a login with an unknown username and a login with a known username
but failing password verification are rejected with the identical 401
response carrying the uniform invalid-credentials message (the two causes
are indistinguishable); only a verified but inactive identity gets the
distinct 403 inactive rejection; otherwise a fresh session is created with
a 7-day expiry and its id is set in the response. -/
theorem login_uniform_errors (verify : String → String → Bool)
    (username password : String) (now : Nat) (sid : String) (db : Db) :
    (db.comerciales.find? (fun c => c.username == username) = none →
       login verify username password now sid db = (.error 401 invalidCredentialsMsg, db))
  ∧ ∀ u, db.comerciales.find? (fun c => c.username == username) = some u →
      ((verify password u.password_hash = false →
          login verify username password now sid db = (.error 401 invalidCredentialsMsg, db))
       ∧ (verify password u.password_hash = true → u.activo = false →
          login verify username password now sid db = (.error 403 inactiveMsg, db))
       ∧ (verify password u.password_hash = true → u.activo = true →
            (login verify username password now sid db).1
              = .ok sid u.username u.nombre u.apellido u.rol u.subgrupo
          ∧ (login verify username password now sid db).2
              = { db with sesiones := db.sesiones ++
                  [⟨sid, u.id, now, now + SESSION_EXPIRY_DAYS * SECONDS_PER_DAY⟩] })) := by
  constructor
  · intro hf
    simp [login, hf]
  · intro u hf
    refine ⟨?_, ?_, ?_⟩
    · intro hv
      simp [login, hf, hv]
    · intro hv ha
      simp [login, hf, hv, ha]
    · intro hv ha
      constructor
      · simp [login, hf, hv, ha, create_session]
      · simp [login, hf, hv, ha, create_session]

/-- C5 witness: on the concrete roster, a correct login for the agent
returns the profile body with the fresh session id set. -/
theorem login_uniform_errors_witness :
    (login (fun p h => p == h) "carlos" "H" 0 "sid1" sampleRosterDb).1
      = LoginResult.ok "sid1" carlosUser.username carlosUser.nombre
          carlosUser.apellido carlosUser.rol carlosUser.subgrupo :=
  (((login_uniform_errors (fun p h => p == h) "carlos" "H" 0 "sid1"
      sampleRosterDb).2 carlosUser (by decide)).2.2 (by decide) (by decide)).1

/-! Claim C6: forgot-password enumeration resistance. -/

/-- C6 (amended): a `forgot_password` request whose stripped email is empty
is rejected with 400 "Email requerido" before the lookup, with no delay
and no token row, identically whether or not it would match.  For a
nonempty stripped email, `forgot_password` answers the identical success
message whether or not the email matches an identity: on no match the
artificial delay is taken and the database is untouched (no token row
created); on a match exactly one reset row is inserted, with expiry
`now + 1 hour` and `used = 0` — and the whole outcome is independent of
the SMTP flag and of whether email dispatch succeeds.  (Original claim
promised the success message for every request; the empty email gets the
400 error instead.) -/
theorem forgot_password_uniform (rawEmail : String) (now : Nat) (tok : String)
    (rid : Nat) (smtp sendOk : Bool) (db : Db) :
    ((pyStrip rawEmail) = "" →
       forgot_password rawEmail now tok rid smtp sendOk db
         = (⟨.error 400 emailRequiredMsg, false⟩, db))
  ∧ ((pyStrip rawEmail) ≠ "" →
       db.comerciales.find? (fun c => c.email == some (pyStrip rawEmail)) = none →
       forgot_password rawEmail now tok rid smtp sendOk db
         = (⟨.ok forgotSuccessMsg, true⟩, db))
  ∧ ((pyStrip rawEmail) ≠ "" →
       ∀ u, db.comerciales.find? (fun c => c.email == some (pyStrip rawEmail)) = some u →
       db.password_resets.any (fun r => r.token == tok) = false →
       forgot_password rawEmail now tok rid smtp sendOk db
         = (⟨.ok forgotSuccessMsg, false⟩,
            { db with password_resets := db.password_resets ++
               [⟨rid, u.id, tok, now + 3600, false, now⟩] }))
  ∧ (∀ smtp2 sendOk2, forgot_password rawEmail now tok rid smtp sendOk db
       = forgot_password rawEmail now tok rid smtp2 sendOk2 db) := by
  refine ⟨?_, ?_, ?_, ?_⟩
  · intro hemp
    unfold forgot_password
    rw [if_pos (by simp [hemp])]
  · intro hne hf
    have hcond : ¬ (((pyStrip rawEmail) == "") = true) := by simpa using hne
    unfold forgot_password
    rw [if_neg hcond]
    simp only [hf]
  · intro hne u hf hfresh
    have hcond : ¬ (((pyStrip rawEmail) == "") = true) := by simpa using hne
    unfold forgot_password
    rw [if_neg hcond]
    simp only [hf]
    rw [if_neg (by simp [hfresh])]
  · intro smtp2 sendOk2
    rfl

/-- C6 witness: on the concrete store, the matching email gets the same
success message as the no-match path and exactly one token row expiring
one hour later is appended. -/
theorem forgot_password_uniform_witness :
    forgot_password "a@b.es" 10 "newtok" 2 true false sampleResetDb
      = (⟨ApiResult.ok forgotSuccessMsg, false⟩,
         { sampleResetDb with password_resets := sampleResetDb.password_resets ++
            [⟨2, anaUser.id, "newtok", 10 + 3600, false, 10⟩] }) :=
  (forgot_password_uniform "a@b.es" 10 "newtok" 2 true false sampleResetDb).2.2.1
    (by decide) anaUser (by decide) (by decide)

/-- C6 counterexample: the claim promises the uniform success message for
every request, but a request whose email is empty (or whitespace-only,
stripped to empty) is answered with the 400 "Email requerido" error, not
the success message. -/
theorem forgot_password_empty_email_cex :
    ¬ ((forgot_password " " 10 "newtok" 2 true false sampleResetDb).1.result
        = ApiResult.ok forgotSuccessMsg) := by decide

/-! Claim C8: credential hashing. -/

/-- C8: for every plaintext `p`, `verify_password p (hash_password p)` is
true; hashing the same plaintext under two distinct fresh salts yields two
different hash strings (the salt is embedded in the output); and on a
malformed hash, where `bcrypt.checkpw` raises, `verify_password` returns
false instead of raising (it is a total function).  `digest` is the
abstract bcrypt key-derivation function, constrained only to its
31-character output length; the salts carry bcrypt's 22-character
length. -/
theorem bcrypt_roundtrip_salted (digest : List Char → List Char → List Char)
    (hdig : ∀ p s, (digest p s).length = 31)
    (p salt1 salt2 : List Char)
    (hs1 : salt1.length = 22) (hs2 : salt2.length = 22) (hne : salt1 ≠ salt2) :
    verify_password digest p (hash_password digest p salt1) = true
  ∧ hash_password digest p salt1 ≠ hash_password digest p salt2
  ∧ ∀ hstr, bcrypt_checkpw digest p hstr = none →
      verify_password digest p hstr = false := by
  have hassoc : ∀ s, hash_password digest p s = bcryptHeader ++ (s ++ digest p s) := by
    intro s
    simp [hash_password, bcrypt_hashpw]
  have hhead : bcryptHeader.length = 7 := rfl
  refine ⟨?_, ?_, ?_⟩
  · have hlen : (bcryptHeader ++ (salt1 ++ digest p salt1)).length = 60 := by
      simp [bcryptHeader, hs1, hdig]
    have htake : (bcryptHeader ++ (salt1 ++ digest p salt1)).take 7 = bcryptHeader :=
      List.take_left' hhead
    have hdrop7 : (bcryptHeader ++ (salt1 ++ digest p salt1)).drop 7
        = salt1 ++ digest p salt1 := List.drop_left' hhead
    have hdrop29 : (bcryptHeader ++ (salt1 ++ digest p salt1)).drop 29
        = digest p salt1 := by
      rw [← List.append_assoc]
      exact List.drop_left' (by simp [bcryptHeader, hs1])
    unfold verify_password bcrypt_checkpw
    rw [hassoc salt1, if_pos ⟨hlen, htake⟩, hdrop7, List.take_left' hs1, hdrop29]
    simp
  · intro heq
    rw [hassoc salt1, hassoc salt2] at heq
    have h3 := List.append_cancel_left heq
    have h4 := (List.append_inj h3 (by rw [hs1, hs2])).1
    exact hne h4
  · intro hstr hnone
    unfold verify_password
    rw [hnone]
    rfl

/-- C8 witness: with a concrete digest and two concrete distinct salts, the
hash verifies and the two hash strings differ. -/
theorem bcrypt_roundtrip_salted_witness :
    verify_password (fun _ _ => List.replicate 31 'x') "pw".toList
        (hash_password (fun _ _ => List.replicate 31 'x') "pw".toList
          (List.replicate 22 'a')) = true
  ∧ hash_password (fun _ _ => List.replicate 31 'x') "pw".toList
        (List.replicate 22 'a')
      ≠ hash_password (fun _ _ => List.replicate 31 'x') "pw".toList
        (List.replicate 22 'b') := by
  have h := bcrypt_roundtrip_salted (fun _ _ => List.replicate 31 'x')
    (by intro p s; simp) "pw".toList (List.replicate 22 'a')
    (List.replicate 22 'b') (by simp) (by simp) (by decide)
  exact ⟨h.1, h.2.1⟩

/-! Claim C9: dashboard aggregate scoping. -/

/-- C9: in the `/stats` response, `total_negocios` and `total_incidencias`
are counted over all rows and thus identical for every pair of callers
regardless of visibility, while `total_actividades` and
`actividades_pendientes` count exactly the activities whose `comercial_id`
lies in the caller's visible-id set (the pending count further requiring
`estado = 'pendiente'`). -/
theorem stats_scope (u1 u2 : Comercial) (db : Db) :
    (get_stats u1 db).total_negocios = (get_stats u2 db).total_negocios
  ∧ (get_stats u1 db).total_incidencias = (get_stats u2 db).total_incidencias
  ∧ ∀ u : Comercial,
      (get_stats u db).total_actividades
        = (db.actividades.filter (fun a =>
            decide (a.comercial_id ∈ get_visible_comercial_ids u db))).length
      ∧ (get_stats u db).actividades_pendientes
        = (db.actividades.filter (fun a =>
            decide (a.estado = "pendiente" ∧
              a.comercial_id ∈ get_visible_comercial_ids u db))).length := by
  refine ⟨rfl, rfl, ?_⟩
  intro u
  constructor
  · simp only [get_stats]
    congr 1
    apply List.filter_congr
    intro a _
    rw [Bool.eq_iff_iff]
    simp [List.elem_iff]
  · simp only [get_stats]
    congr 1
    apply List.filter_congr
    intro a _
    rw [Bool.eq_iff_iff]
    simp [List.elem_iff]

end ActivityIncident
